import Mathlib

/-!
Verification development for the SoloPay backend (`index.js`), a PDF
statement analyzer. The code is shallowly embedded: JavaScript strings are
`List Char`, JavaScript values are `JsVal`, the on-disk temp-file store is a
function from session ids to byte blobs, and the external collaborators
(pdf-lib `PDFDocument.load`, `pdf-parse` text extraction, the Gemini API)
are handler parameters, as the spec treats them as external. `JSON.parse`
is modelled by an executable JSON parser over `List Char`.
-/

namespace SoloPay

/-- Raw PDF bytes; the content is opaque to the backend. -/
abbrev Bytes := List Nat

/-- JavaScript runtime values, as far as the backend observes them. -/
inductive JsVal : Type where
  | undefined : JsVal
  | null : JsVal
  | bool (b : Bool) : JsVal
  | num (q : ℚ) : JsVal
  | str (s : String) : JsVal
  | arr (xs : List JsVal) : JsVal
  | obj (fields : List (String × JsVal)) : JsVal

/-- The left brace character, kept out of character literals. -/
def lbraceChar : Char := Char.ofNat 123

/-- The right brace character. -/
def rbraceChar : Char := Char.ofNat 125

/-- JSON whitespace (also used to model `String.prototype.trim`). -/
def isJsonWs (c : Char) : Bool :=
  c = ' ' || c = '\t' || c = '\n' || c = '\r'

/-- Drop leading JSON whitespace. -/
def skipWs : List Char → List Char
  | [] => []
  | c :: cs => if isJsonWs c then skipWs cs else c :: cs

/-- Model of `String.prototype.trim` (restricted to the common whitespace). -/
def trimChars (s : List Char) : List Char :=
  (skipWs (skipWs s).reverse).reverse

/-- Longest leading run of ASCII digits, with the remainder. -/
def takeDigits : List Char → (List Char × List Char)
  | [] => ([], [])
  | c :: cs =>
    if c.isDigit then
      let (d, r) := takeDigits cs
      (c :: d, r)
    else ([], c :: cs)

/-- Decimal value of a digit string. -/
def digitsToNat (ds : List Char) : Nat :=
  ds.foldl (fun a c => a * 10 + (c.toNat - 48)) 0

/-- Hexadecimal value of one digit, for `\uXXXX` escapes. -/
def hexVal (c : Char) : Option Nat :=
  if c.isDigit then some (c.toNat - 48)
  else if 'a' ≤ c ∧ c ≤ 'f' then some (c.toNat - 87)
  else if 'A' ≤ c ∧ c ≤ 'F' then some (c.toNat - 55)
  else none

/-- Optional fraction part of a JSON number, after the integer digits. -/
def parseFrac : List Char → Option (ℚ × List Char)
  | '.' :: r =>
    match takeDigits r with
    | ([], _) => none
    | (ds, r') => some ((digitsToNat ds : ℚ) / ((10 : ℚ) ^ ds.length), r')
  | s => some (0, s)

/-- Optional exponent part of a JSON number. -/
def parseExp : List Char → Option (Bool × Nat × List Char)
  | c :: r =>
    if c = 'e' ∨ c = 'E' then
      let (negE, r1) :=
        match r with
        | '+' :: t => (false, t)
        | '-' :: t => (true, t)
        | t => (false, t)
      match takeDigits r1 with
      | ([], _) => none
      | (ds, r') => some (negE, digitsToNat ds, r')
    else some (false, 0, c :: r)
  | [] => some (false, 0, [])

/-- JSON number grammar: optional minus, digits without a leading zero,
optional fraction, optional exponent. -/
def parseNumber (s : List Char) : Option (ℚ × List Char) :=
  let (neg, s1) :=
    match s with
    | '-' :: r => (true, r)
    | _ => (false, s)
  match takeDigits s1 with
  | ([], _) => none
  | (ds, r1) =>
    if ds.length > 1 ∧ ds.headI = '0' then none
    else
      match parseFrac r1 with
      | none => none
      | some (f, r2) =>
        match parseExp r2 with
        | none => none
        | some (negE, e, r3) =>
          let base : ℚ := (digitsToNat ds : ℚ) + f
          let m : ℚ := if negE then base / (10 : ℚ) ^ e else base * (10 : ℚ) ^ e
          some ((if neg then -m else m), r3)

/-- Body of a JSON string literal after the opening quote: unescapes and
returns the content plus the remainder after the closing quote. -/
def parseStringRest : List Char → Option (List Char × List Char)
  | [] => none
  | '"' :: r => some ([], r)
  | '\\' :: 'u' :: a :: b :: c :: d :: r =>
    match hexVal a, hexVal b, hexVal c, hexVal d with
    | some ha, some hb, some hc, some hd =>
      (parseStringRest r).map fun (cs, rest) =>
        (Char.ofNat (((ha * 16 + hb) * 16 + hc) * 16 + hd) :: cs, rest)
    | _, _, _, _ => none
  | '\\' :: e :: r =>
    (match e with
     | '"' => some '"'
     | '\\' => some '\\'
     | '/' => some '/'
     | 'n' => some '\n'
     | 't' => some '\t'
     | 'r' => some '\r'
     | 'b' => some (Char.ofNat 8)
     | 'f' => some (Char.ofNat 12)
     | _ => none).bind fun ch =>
      (parseStringRest r).map fun (cs, rest) => (ch :: cs, rest)
  | c :: r =>
    if c.toNat < 32 then none
    else (parseStringRest r).map fun (cs, rest) => (c :: cs, rest)

mutual

/-- Fuelled JSON value parser modelling `JSON.parse`; returns the value and
the unconsumed remainder. -/
def parseValue : Nat → List Char → Option (JsVal × List Char)
  | 0, _ => none
  | fuel + 1, s =>
    match skipWs s with
    | [] => none
    | c :: r =>
      if c = '"' then
        (parseStringRest r).map fun (cs, rest) => (.str ⟨cs⟩, rest)
      else if c = lbraceChar then parseMembersStart fuel r
      else if c = '[' then parseElemsStart fuel r
      else if c = 't' then
        match r with
        | 'r' :: 'u' :: 'e' :: rest => some (.bool true, rest)
        | _ => none
      else if c = 'f' then
        match r with
        | 'a' :: 'l' :: 's' :: 'e' :: rest => some (.bool false, rest)
        | _ => none
      else if c = 'n' then
        match r with
        | 'u' :: 'l' :: 'l' :: rest => some (.null, rest)
        | _ => none
      else
        (parseNumber (c :: r)).map fun (q, rest) => (.num q, rest)

/-- After the opening brace of an object. -/
def parseMembersStart : Nat → List Char → Option (JsVal × List Char)
  | 0, _ => none
  | fuel + 1, s =>
    match skipWs s with
    | [] => none
    | c :: r =>
      if c = rbraceChar then some (.obj [], r)
      else parseMembers fuel (c :: r) []

/-- Object members, accumulating parsed key/value pairs in order. -/
def parseMembers : Nat → List Char → List (String × JsVal) →
    Option (JsVal × List Char)
  | 0, _, _ => none
  | fuel + 1, s, acc =>
    match skipWs s with
    | '"' :: r =>
      match parseStringRest r with
      | none => none
      | some (key, r1) =>
        match skipWs r1 with
        | ':' :: r2 =>
          match parseValue fuel r2 with
          | none => none
          | some (v, r3) =>
            match skipWs r3 with
            | ',' :: r4 => parseMembers fuel r4 (acc ++ [(⟨key⟩, v)])
            | c :: r4 =>
              if c = rbraceChar then some (.obj (acc ++ [(⟨key⟩, v)]), r4)
              else none
            | [] => none
        | _ => none
    | _ => none

/-- After the opening bracket of an array. -/
def parseElemsStart : Nat → List Char → Option (JsVal × List Char)
  | 0, _ => none
  | fuel + 1, s =>
    match skipWs s with
    | [] => none
    | c :: r =>
      if c = ']' then some (.arr [], r)
      else parseElems fuel (c :: r) []

/-- Array elements, accumulating parsed values in order. -/
def parseElems : Nat → List Char → List JsVal → Option (JsVal × List Char)
  | 0, _, _ => none
  | fuel + 1, s, acc =>
    match parseValue fuel s with
    | none => none
    | some (v, r1) =>
      match skipWs r1 with
      | ',' :: r2 => parseElems fuel r2 (acc ++ [v])
      | ']' :: r2 => some (.arr (acc ++ [v]), r2)
      | _ => none

end

/-- Model of `JSON.parse`: one JSON value, with only trailing whitespace. -/
def jsonParse (s : List Char) : Option JsVal :=
  match parseValue (2 * s.length + 2) s with
  | some (v, rest) => if skipWs rest = [] then some v else none
  | none => none

/-! JavaScript value helpers. -/

/-- JavaScript truthiness (NaN is not representable in this model). -/
def jsTruthy : JsVal → Bool
  | .undefined => false
  | .null => false
  | .bool b => b
  | .num q => q != 0
  | .str s => s != ""
  | .arr _ => true
  | .obj _ => true

/-- The value is neither `null` nor `undefined` (member access is safe). -/
def isNonNullish : JsVal → Bool
  | .undefined => false
  | .null => false
  | _ => true

/-- `Array.isArray`. -/
def isArray : JsVal → Bool
  | .arr _ => true
  | _ => false

/-- Elements of an array value; other values have none. -/
def jsArrayOf : JsVal → List JsVal
  | .arr xs => xs
  | _ => []

/-- Property lookup on an object; `none` when the key is absent or the value
is not an object. -/
def objLookup : JsVal → String → Option JsVal
  | .obj fs, k => fs.lookup k
  | _, _ => none

/-- Total property access: objects yield the field or `undefined`; other
non-nullish primitives yield `undefined` (none of the accessed keys is a
built-in such as `length`). -/
def jsField : JsVal → String → JsVal
  | .obj fs, k => (fs.lookup k).getD .undefined
  | _, _ => .undefined

/-- Property access as executed by JavaScript: throws a `TypeError` on
`null`/`undefined` receivers, otherwise behaves as `jsField`. -/
def jsGet : JsVal → String → Except String JsVal
  | .undefined, k => .error ("TypeError: cannot read " ++ k ++ " of undefined")
  | .null, k => .error ("TypeError: cannot read " ++ k ++ " of null")
  | v, k => .ok (jsField v k)

/-- The JavaScript `a || b` operator. -/
def jsOr (a b : JsVal) : JsVal :=
  if jsTruthy a then a else b

/-- `Object.entries` on an object value; primitives have no own enumerable
properties in the cases this development exercises. -/
def jsEntries : JsVal → List (String × JsVal)
  | .obj fs => fs
  | _ => []

/-- String conversion used by template literals; decimal formatting of
non-integral numbers and array/object stringification are abstracted, as no
verified claim depends on them. -/
def jsDisplay : JsVal → String
  | .str s => s
  | .num q => if q.den = 1 then toString q.num else toString q
  | .bool b => if b then "true" else "false"
  | .null => "null"
  | .undefined => "undefined"
  | .arr _ => ""
  | .obj _ => "[object Object]"

/-! Models of the regular-expression operations in the handlers. -/

/-- Does `pat` occur as a contiguous substring (`String.prototype.includes`)? -/
def listContains (pat : List Char) : List Char → Bool
  | [] => pat.isEmpty
  | l@(_ :: tail) => pat.isPrefixOf l || listContains pat tail

/-- Remainder of the text after the first occurrence of the 7-character
opener of a fenced block, for `analysisText.match` on the fenced-JSON
pattern. -/
def findFence : List Char → Option (List Char)
  | [] => none
  | l@(_ :: tail) =>
    if ("```json".data).isPrefixOf l then some (l.drop 7)
    else findFence tail

/-- Content up to the first closing fence (the non-greedy capture group). -/
def takeUntilFence : List Char → Option (List Char)
  | [] => none
  | l@(c :: tail) =>
    if ("```".data).isPrefixOf l then some []
    else (takeUntilFence tail).map fun cs => c :: cs

/-- Capture group of the first match of the fenced-JSON pattern
(three backticks, `json`, non-greedy content, three backticks), or `none`
when the pattern does not match. A later opener only matches when the first
one does not close, which cannot happen, so scanning from the first opener
is the leftmost match. -/
def matchFencedJson (s : List Char) : Option (List Char) :=
  (findFence s).bind takeUntilFence

/-- Whole match of the brace pattern (left brace, any characters greedily,
right brace): from the first left brace to the last right brace of the
text, when the latter comes after the former. -/
def braceMatch (s : List Char) : Option (List Char) :=
  match List.findIdx? (· = lbraceChar) s, List.findIdx? (· = rbraceChar) s.reverse with
  | some i, some rj =>
    let j := s.length - 1 - rj
    if i < j then some ((s.drop i).take (j - i + 1)) else none
  | _, _ => none

/-! The JSON-extraction step shared by `/api/analyze-text` and
`/api/process-pdf`. -/

/-- Fallback route: parse the greedy brace span; `none` models the
`No JSON found in response` throw reaching the enclosing catch. -/
def braceRoute (s : List Char) : Option JsVal :=
  (braceMatch s).bind jsonParse

/-- JSON extraction from the model response: a fenced block with non-empty
capture is parsed (after trimming) when present, otherwise the greedy brace
span; `none` means the catch block builds a fallback object. -/
def extractJsonCore (s : List Char) : Option JsVal :=
  match matchFencedJson s with
  | some content =>
    if content.isEmpty then braceRoute s
    else jsonParse (trimChars content)
  | none => braceRoute s

/-- Fallback analysis object of `/api/analyze-text` when parsing fails. -/
def analyzeTextFallback (analysisText : List Char) : JsVal :=
  .obj [("summary", .obj [("totalDeposits", .num 0),
                          ("totalWithdrawals", .num 0),
                          ("netFlow", .num 0),
                          ("error", .str "Analysis completed but formatting failed")]),
        ("categories", .obj []),
        ("alerts", .arr [.str "Analysis completed but data formatting failed"]),
        ("rawResponse", .str ⟨analysisText.take 1000⟩)]

/-- Fallback analysis object of `/api/process-pdf` when parsing fails. -/
def processPdfFallback (analysisText : List Char) : JsVal :=
  .obj [("summary", .obj [("error", .str "Analysis completed but formatting failed")]),
        ("rawResponse", .str ⟨analysisText.take 1000⟩)]

/-- The reading the spec gives of the fallback extraction: the first top-level
brace-balanced span of the text. Modelled from the spec for comparison with
`braceMatch`; the code does not compute this. -/
def specSpanGo : Nat → List Char → List Char → Option (List Char)
  | _, _, [] => none
  | depth, acc, c :: r =>
    if c = lbraceChar then specSpanGo (depth + 1) (acc ++ [c]) r
    else if c = rbraceChar then
      if depth = 1 then some (acc ++ [c])
      else specSpanGo (depth - 1) (acc ++ [c]) r
    else specSpanGo depth (acc ++ [c]) r

/-- First top-level balanced brace span, per the wording of the spec. -/
def specFirstTopLevelSpan : List Char → Option (List Char)
  | [] => none
  | c :: r =>
    if c = lbraceChar then specSpanGo 1 [c] r
    else specFirstTopLevelSpan r


/-! Prompt Builder (`getBankStatementPrompt`, `getCreditCardPrompt`). -/

/-- Non-overlapping left-to-right count of matches of the date pattern
(two digits, slash, two digits, slash, four digits), fuelled by the input
length so that evaluation reduces definitionally. -/
def countDatesF : Nat → List Char → Nat
  | 0, _ => 0
  | fuel + 1, l =>
    match l with
    | a :: b :: c :: d :: e :: f :: g :: h :: i :: j :: rest =>
      if a.isDigit && b.isDigit && c = '/' && d.isDigit && e.isDigit &&
          f = '/' && g.isDigit && h.isDigit && i.isDigit && j.isDigit then
        countDatesF fuel rest + 1
      else countDatesF fuel (b :: c :: d :: e :: f :: g :: h :: i :: j :: rest)
    | _ => 0

/-- Number of global matches of the date regular expression in the text. -/
def countDateMatches (s : List Char) : Nat :=
  countDatesF s.length s

/-- The literal omission marker inserted when oversized text is trimmed. -/
def omissionMarker : List Char :=
  "\n...[MIDDLE SECTION OMITTED FOR LENGTH]...\n".data

/-- Head-and-tail window applied to texts longer than 500000 characters. -/
def trimmedText (text : List Char) : List Char :=
  if text.length > 500000 then
    text.take 100000 ++ omissionMarker ++ text.drop (text.length - 100000)
  else text

/-- Template fragment (250 characters). -/
def bankPromptPreC1 : String :=
  "\n    You are an expert financial analyst. Analyze this bank statement with high precision.\n    \n    CRITICAL RULES:\n    1. Return ONLY valid JSON - no markdown, no extra text, no code blocks\n    2. All numbers must be numeric values without currency "

/-- Template fragment (120 characters). -/
def bankPromptPreC2 : String :=
  "symbols (e.g., 1500.50, not \"₹1,500.50\")\n    3. All dates should be in DD/MM/YYYY format\n    4. For transactions array: "

/-- Template text assembled from its fragments (370 characters). -/
def bankPromptPre : List Char :=
  bankPromptPreC1.data ++ bankPromptPreC2.data

/-- Template fragment (250 characters). -/
def bankPromptMidC1 : String :=
  "\n    5. If returning JSON in code blocks, wrap it in ```json and ```\n    \n    TASK BREAKDOWN:\n    Step 1: Extract account details (bank name, account number, period, opening/closing balance)\n    Step 2: Count and sum all transactions (total deposits,"

/-- Template fragment (250 characters). -/
def bankPromptMidC2 : String :=
  " withdrawals, transaction count)\n    Step 3: Categorize transactions:\n       - UPI: Any transaction with \"UPI\" in description (except ONECARD)\n       - NEFT: Transactions with \"NEFT\"\n       - ATM: ATM withdrawals\n       - CreditCard: Credit card paym"

/-- Template fragment (250 characters). -/
def bankPromptMidC3 : String :=
  "ents including ONECARD\n       - achTransfers: ACH debits/credits (ETMONEY, etc)\n       - Others: Everything else\n    Step 4: Identify patterns (recurring payments, highest spending month if multi-month)\n    \n    EXPECTED JSON OUTPUT:\n    \x7b\n      \"acc"

/-- Template fragment (250 characters). -/
def bankPromptMidC4 : String :=
  "ountInfo\": \x7b\n        \"bankName\": \"extract bank name\",\n        \"accountNumber\": \"extract account number\",\n        \"period\": \"extract statement period\",\n        \"openingBalance\": extract_opening_balance_as_number,\n        \"closingBalance\": extract_clos"

/-- Template fragment (250 characters). -/
def bankPromptMidC5 : String :=
  "ing_balance_as_number\n      \x7d,\n      \"summary\": \x7b\n        \"totalDeposits\": sum_all_credits,\n        \"totalWithdrawals\": sum_all_debits,\n        \"netFlow\": deposits_minus_withdrawals,\n        \"transactionCount\": total_number_of_transactions,\n        \""

/-- Template fragment (250 characters). -/
def bankPromptMidC6 : String :=
  "avgDailySpending\": average_daily_debit_amount\n      \x7d,\n      \"categories\": \x7b\n        \"upi\": \x7b \"total\": sum_upi_transactions, \"count\": count_upi_transactions, \"percentage\": percent_of_total \x7d,\n        \"neft\": \x7b \"total\": sum_neft, \"count\": count_neft, "

/-- Template fragment (250 characters). -/
def bankPromptMidC7 : String :=
  "\"percentage\": percent \x7d,\n        \"atm\": \x7b \"total\": sum_atm, \"count\": count_atm, \"percentage\": percent \x7d,\n        \"creditCard\": \x7b \"total\": sum_cc, \"count\": count_cc, \"percentage\": percent \x7d,\n        \"achTransfers\": \x7b \"total\": sum_ach, \"count\": count_a"

/-- Template fragment (250 characters). -/
def bankPromptMidC8 : String :=
  "ch, \"percentage\": percent \x7d,\n        \"others\": \x7b \"total\": sum_others, \"count\": count_others, \"percentage\": percent \x7d\n      \x7d,\n      \"monthlyPatterns\": \x7b\n        \"highestSpendingMonth\": \"month_name_with_year\",\n        \"lowestSpendingMonth\": \"month_nam"

/-- Template fragment (250 characters). -/
def bankPromptMidC9 : String :=
  "e_with_year\",\n        \"averageMonthlySpending\": average_per_month\n      \x7d,\n      \"recurringPayments\": [\n        \x7b \"description\": \"merchant_name\", \"amount\": recurring_amount, \"frequency\": \"monthly/weekly\" \x7d\n      ],\n      \"topTransactions\": [\n        "

/-- Template fragment (250 characters). -/
def bankPromptMidC10 : String :=
  "\x7b \"date\": \"DD/MM/YYYY\", \"description\": \"transaction_description\", \"amount\": amount, \"type\": \"debit/credit\" \x7d\n      ],\n      \"alerts\": [\n        \"High UPI transaction volume detected\",\n        \"Multiple ACH debits on same day\"\n      ],\n      \"transact"

/-- Template fragment (209 characters). -/
def bankPromptMidC11 : String :=
  "ions\": [\n        \x7b \"date\": \"DD/MM/YYYY\", \"description\": \"full_description\", \"debit\": debit_amount_or_0, \"credit\": credit_amount_or_0, \"balance\": balance_after \x7d\n      ]\n    \x7d\n    \n    Bank Statement Text:\n    "

/-- Template text assembled from its fragments (2709 characters). -/
def bankPromptMid : List Char :=
  bankPromptMidC1.data ++ bankPromptMidC2.data ++ bankPromptMidC3.data ++ bankPromptMidC4.data ++ bankPromptMidC5.data ++ bankPromptMidC6.data ++ bankPromptMidC7.data ++ bankPromptMidC8.data ++ bankPromptMidC9.data ++ bankPromptMidC10.data ++ bankPromptMidC11.data

/-- Template fragment (3 characters). -/
def bankPromptPostC1 : String :=
  "\n  "

/-- Template text assembled from its fragments (3 characters). -/
def bankPromptPost : List Char :=
  bankPromptPostC1.data

/-- Template fragment (250 characters). -/
def creditPromptPreC1 : String :=
  "\n    You are a financial analyst. Analyze this credit card statement and extract ALL information.\n    \n    CRITICAL RULES:\n    1. Return ONLY valid JSON - no markdown, no extra text, no code blocks\n    2. All numbers must be numeric values without cu"

/-- Template fragment (250 characters). -/
def creditPromptPreC2 : String :=
  "rrency symbols (e.g., 550.75, not \"$550.75\")\n    3. All dates should be in DD/MM/YYYY format\n    4. If returning JSON in code blocks, wrap it in ```json and ```\n    \n    TASK BREAKDOWN:\n    1. Extract all transactions with date, merchant, and amount\n"

/-- Template fragment (250 characters). -/
def creditPromptPreC3 : String :=
  "    2. Identify ALL subscriptions (Netflix, Spotify, ChatGPT, etc.)\n    3. Categorize spending by type\n    4. Find expensive transactions\n    5. Calculate total spending\n    \n    Return this EXACT JSON structure:\n    \x7b\n      \"cardInfo\": \x7b\n        \"ba"

/-- Template fragment (250 characters). -/
def creditPromptPreC4 : String :=
  "nkName\": \"string\",\n        \"cardNumber\": \"string\",\n        \"statementPeriod\": \"string\",\n        \"creditLimit\": number,\n        \"availableCredit\": number\n      \x7d,\n      \"summary\": \x7b\n        \"totalSpent\": number,\n        \"paymentMade\": number,\n        "

/-- Template fragment (250 characters). -/
def creditPromptPreC5 : String :=
  "\"minimumDue\": number,\n        \"dueDate\": \"string\",\n        \"outstandingBalance\": number\n      \x7d,\n      \"subscriptions\": [\n        \x7b \n          \"merchant\": \"string\", \n          \"amount\": number, \n          \"category\": \"string\",\n          \"frequency\": "

/-- Template fragment (250 characters). -/
def creditPromptPreC6 : String :=
  "\"monthly/annual\"\n        \x7d\n      ],\n      \"categories\": \x7b\n        \"dining\": \x7b \"total\": number, \"count\": number, \"percentage\": number \x7d,\n        \"shopping\": \x7b \"total\": number, \"count\": number, \"percentage\": number \x7d,\n        \"travel\": \x7b \"total\": numbe"

/-- Template fragment (250 characters). -/
def creditPromptPreC7 : String :=
  "r, \"count\": number, \"percentage\": number \x7d,\n        \"entertainment\": \x7b \"total\": number, \"count\": number, \"percentage\": number \x7d,\n        \"utilities\": \x7b \"total\": number, \"count\": number, \"percentage\": number \x7d,\n        \"others\": \x7b \"total\": number, \"co"

/-- Template fragment (250 characters). -/
def creditPromptPreC8 : String :=
  "unt\": number, \"percentage\": number \x7d\n      \x7d,\n      \"expensiveTransactions\": [\n        \x7b \"date\": \"string\", \"merchant\": \"string\", \"amount\": number \x7d\n      ],\n      \"alerts\": [\"string\"],\n      \"transactions\": [\n        \x7b \"date\": \"string\", \"merchant\": \""

/-- Template fragment (105 characters). -/
def creditPromptPreC9 : String :=
  "string\", \"amount\": number, \"category\": \"string\" \x7d\n      ]\n    \x7d\n    \n    Credit Card Statement Text:\n    "

/-- Template text assembled from its fragments (2105 characters). -/
def creditPromptPre : List Char :=
  creditPromptPreC1.data ++ creditPromptPreC2.data ++ creditPromptPreC3.data ++ creditPromptPreC4.data ++ creditPromptPreC5.data ++ creditPromptPreC6.data ++ creditPromptPreC7.data ++ creditPromptPreC8.data ++ creditPromptPreC9.data

/-- Template fragment (3 characters). -/
def creditPromptPostC1 : String :=
  "\n  "

/-- Template text assembled from its fragments (3 characters). -/
def creditPromptPost : List Char :=
  creditPromptPostC1.data

/-- Literal template fragments of the interpolated transaction rule. -/
def bankPromptLarge : String := "Include ONLY the 50 largest transactions"

/-- The rule text chosen for small statements. -/
def bankPromptSmall : String := "Include ALL transactions"

/-- The interpolated transaction rule: large statements (more than 200
date matches or more than 100000 characters) ask for the 50 largest
transactions only. -/
def bankPromptRule4 (text : List Char) : List Char :=
  if countDateMatches text > 200 || text.length > 100000 then bankPromptLarge.data
  else bankPromptSmall.data

/-- The bank-statement prompt: template text around the interpolated rule
and the (possibly trimmed) statement text. -/
def getBankStatementPrompt (text : List Char) : List Char :=
  bankPromptPre ++ bankPromptRule4 text ++
    bankPromptMid ++ trimmedText text ++ bankPromptPost

/-- The credit-card prompt around the (possibly trimmed) statement text. -/
def getCreditCardPrompt (text : List Char) : List Char :=
  creditPromptPre ++ trimmedText text ++ creditPromptPost


/-! Temporary File Store (`saveTemporaryFile`, `getTemporaryFile`,
`deleteTemporaryFile`). The temp directory is a map from session ids to
byte blobs; the `.pdf` suffixing of paths is absorbed into the key. -/

/-- The temp directory contents. -/
def Store : Type := String → Option Bytes

/-- `fs.writeFile` under the session key (`saveTemporaryFile`). -/
def saveTemporaryFile (st : Store) (sessionId : String) (buffer : Bytes) : Store :=
  fun x => if x = sessionId then some buffer else st x

/-- `fs.readFile` wrapped in try/catch: bytes, or `null` when the file is
missing (`getTemporaryFile`). -/
def getTemporaryFile (st : Store) (sessionId : String) : Option Bytes :=
  st sessionId

/-- `fs.unlink`: removes the entry, or fails when it is absent. -/
def fsUnlink (st : Store) (sessionId : String) : Except String Store :=
  if (st sessionId).isSome then
    .ok (fun x => if x = sessionId then none else st x)
  else .error "ENOENT: no such file or directory"

/-- The catch block of `deleteTemporaryFile`: any unlink failure is logged
and swallowed, leaving the store as it was. -/
def deleteTemporaryFileWith (unlinkResult : Except String Store) (st : Store) : Store :=
  match unlinkResult with
  | .ok st1 => st1
  | .error _ => st

/-- `deleteTemporaryFile`: unlink under try/catch; never propagates. -/
def deleteTemporaryFile (st : Store) (sessionId : String) : Store :=
  deleteTemporaryFileWith (fsUnlink st sessionId) st

/-! PDF Gatekeeper. `PDFDocument.load` of pdf-lib is an external
collaborator; its outcome on given bytes (and password) is a parameter. -/

/-- Outcome of a `PDFDocument.load` call (for unlock, `ok` carries the
re-serialized bytes of `pdfDoc.save()`). -/
inductive PdfLoadResult : Type where
  | ok (bytes : Bytes) : PdfLoadResult
  | err (msg : String) : PdfLoadResult

/-- An HTTP response: status code and JSON body. -/
abbrev HttpResponse := Nat × JsVal

/-- `POST /api/check-pdf`: load without password; an error message
mentioning `encrypted` means password-protected; both non-error outcomes
save the bytes under a fresh session id. `load0` models
`PDFDocument.load` with no password, `freshId` the generated session id. -/
def checkPdf (load0 : Bytes → PdfLoadResult) (st : Store) (freshId : String)
    (file : Option (String × ℚ × Bytes)) : HttpResponse × Store :=
  match file with
  | none => ((400, .obj [("error", .str "No file uploaded")]), st)
  | some (fileName, fileSize, pdfBuffer) =>
    match load0 pdfBuffer with
    | .ok _ =>
      ((200, .obj [("status", .str "success"),
                   ("passwordRequired", .bool false),
                   ("message", .str "No password required. Click to continue."),
                   ("fileName", .str fileName),
                   ("fileSize", .num fileSize),
                   ("sessionId", .str freshId)]),
       saveTemporaryFile st freshId pdfBuffer)
    | .err m =>
      if listContains "encrypted".data m.data then
        ((200, .obj [("status", .str "password_required"),
                     ("passwordRequired", .bool true),
                     ("message", .str "This PDF is password protected. Please enter the password."),
                     ("fileName", .str fileName),
                     ("fileSize", .num fileSize),
                     ("sessionId", .str freshId)]),
         saveTemporaryFile st freshId pdfBuffer)
      else ((500, .obj [("error", .str "Failed to check PDF"),
                        ("details", .str m)]), st)

/-- `POST /api/unlock-pdf`: requires both fields truthy, loads the stored
bytes with the supplied password; an error message mentioning `password`
maps to 401/`invalid_password`; other errors to 500. `load` models
`PDFDocument.load` with a password followed by `pdfDoc.save()`. -/
def unlockPdf (load : Bytes → String → PdfLoadResult) (st : Store)
    (sessionId password : String) : HttpResponse × Store :=
  if sessionId = "" ∨ password = "" then
    ((400, .obj [("error", .str "Session ID and password are required")]), st)
  else
    match getTemporaryFile st sessionId with
    | none => ((404, .obj [("error", .str "Session expired or file not found")]), st)
    | some pdfBuffer =>
      match load pdfBuffer password with
      | .ok unlockedPdfBytes =>
        ((200, .obj [("status", .str "success"),
                     ("message", .str "PDF unlocked successfully! Processing..."),
                     ("sessionId", .str (sessionId ++ "_unlocked"))]),
         saveTemporaryFile st (sessionId ++ "_unlocked") unlockedPdfBytes)
      | .err m =>
        if listContains "password".data m.data then
          ((401, .obj [("status", .str "invalid_password"),
                       ("error", .str "Incorrect password. Please try again.")]), st)
        else ((500, .obj [("error", .str "Failed to unlock PDF"),
                          ("details", .str m)]), st)

/-! Analysis Client and the two analysis endpoints. The Gemini call
(`getGenerativeModel` + `generateContent`) is a parameter taking the chosen
model name and the prompt and returning the response text or an error. -/

/-- Selection between the two prompt templates: strict equality of the
document type with the string literal bank. -/
def jsIsBank : JsVal → Bool
  | .str s => s = "bank"
  | _ => false

/-- The prompt used by both analysis endpoints. -/
def promptFor (documentType : JsVal) (text : List Char) : List Char :=
  if jsIsBank documentType then getBankStatementPrompt text
  else getCreditCardPrompt text

/-- Model selection on the text size. -/
def modelNameFor (text : List Char) : String :=
  if text.length > 150000 then "gemini-2.5-pro" else "gemini-2.5-flash"

/-- `POST /api/analyze-text`. -/
def analyzeText (llm : String → List Char → Except String (List Char))
    (text : List Char) (documentType : JsVal) : HttpResponse :=
  if text.isEmpty then
    (400, .obj [("error", .str "No text provided for analysis")])
  else
    match llm (modelNameFor text) (promptFor documentType text) with
    | .error e =>
      (500, .obj [("error", .str "Failed to analyze document"), ("details", .str e)])
    | .ok analysisText =>
      let analysis :=
        match extractJsonCore analysisText with
        | some v => v
        | none => analyzeTextFallback analysisText
      (200, .obj [("status", .str "success"),
                  ("analysis", analysis),
                  ("documentType", documentType),
                  ("textLength", .num (text.length : ℚ))])

/-- `POST /api/process-pdf`: look up the session, extract the text
(`pdf-parse`, a parameter), delete the temp file, then call the model.
Failures of extraction or of the model call surface as 500. -/
def processPdf (extract : Bytes → Except String (List Char))
    (llm : String → List Char → Except String (List Char))
    (st : Store) (sessionId : String) (type : JsVal) : HttpResponse × Store :=
  match getTemporaryFile st sessionId with
  | none => ((404, .obj [("error", .str "Session expired or file not found")]), st)
  | some pdfBuffer =>
    match extract pdfBuffer with
    | .error e =>
      ((500, .obj [("error", .str "Failed to process PDF"), ("details", .str e)]), st)
    | .ok extractedText =>
      let st1 := deleteTemporaryFile st sessionId
      match llm (modelNameFor extractedText) (promptFor type extractedText) with
      | .error e =>
        ((500, .obj [("error", .str "Failed to process PDF"), ("details", .str e)]), st1)
      | .ok analysisText =>
        let analysis :=
          match extractJsonCore analysisText with
          | some v => v
          | none => processPdfFallback analysisText
        ((200, .obj [("status", .str "success"),
                     ("analysis", analysis),
                     ("documentType", type),
                     ("textLength", .num (extractedText.length : ℚ))]), st1)


/-! Report Renderer (`createBankStatementExcel`, `createCreditCardExcel`,
`POST /api/generate-report`). A workbook is the sequence of worksheets; a
worksheet keeps its name, column declarations and the values passed to
`addRow`, which is all ExcelJS receives from this code. -/

/-- One column declaration (`header`, `key`, `width`). -/
structure Column : Type where
  header : String
  key : String
  width : Nat

/-- One worksheet: name, columns, and the row values added in order. -/
structure Worksheet : Type where
  name : String
  columns : List Column
  rows : List JsVal

/-- A workbook is the list of added worksheets in order. -/
structure Workbook : Type where
  sheets : List Worksheet

/-- Columns of the bank `All Transactions` sheet. -/
def bankTransColumns : List Column :=
  [⟨"Date", "date", 15⟩, ⟨"Description", "description", 40⟩,
   ⟨"Debit", "debit", 15⟩, ⟨"Credit", "credit", 15⟩,
   ⟨"Balance", "balance", 15⟩, ⟨"Category", "category", 15⟩]

/-- Columns of both `Summary` sheets. -/
def summaryColumns : List Column :=
  [⟨"Metric", "metric", 30⟩, ⟨"Value", "value", 20⟩]

/-- Columns of the credit `Transactions` sheet. -/
def creditTransColumns : List Column :=
  [⟨"Date", "date", 15⟩, ⟨"Merchant", "merchant", 35⟩,
   ⟨"Amount", "amount", 15⟩, ⟨"Category", "category", 20⟩]

/-- Columns of the `Subscriptions` sheet. -/
def creditSubColumns : List Column :=
  [⟨"Service", "merchant", 30⟩, ⟨"Amount", "amount", 15⟩,
   ⟨"Frequency", "frequency", 15⟩, ⟨"Category", "category", 20⟩]

/-- A metric/value summary row. -/
def kvRow (metric : String) (value : JsVal) : JsVal :=
  .obj [("metric", .str metric), ("value", value)]

/-- Sequential traversal of the rows added by a forEach loop, stopping at
the first thrown exception. -/
def rowsMapM {α : Type} (f : α → Except String JsVal) :
    List α → Except String (List JsVal)
  | [] => .ok []
  | t :: ts => do
    let r ← f t
    let rs ← rowsMapM f ts
    pure (r :: rs)

/-- The defaulted bank transaction row, with property access that can
throw on nullish elements. -/
def bankTransRow (t : JsVal) : Except String JsVal := do
  let date ← jsGet t "date"
  let description ← jsGet t "description"
  let debit ← jsGet t "debit"
  let credit ← jsGet t "credit"
  let balance ← jsGet t "balance"
  let category ← jsGet t "category"
  pure (.obj [("date", jsOr date (.str "")),
              ("description", jsOr description (.str "")),
              ("debit", jsOr debit (.num 0)),
              ("credit", jsOr credit (.num 0)),
              ("balance", jsOr balance (.num 0)),
              ("category", jsOr category (.str ""))])

/-- Total mirror of `bankTransRow` on non-nullish elements. -/
def bankRowPure (t : JsVal) : JsVal :=
  .obj [("date", jsOr (jsField t "date") (.str "")),
        ("description", jsOr (jsField t "description") (.str "")),
        ("debit", jsOr (jsField t "debit") (.num 0)),
        ("credit", jsOr (jsField t "credit") (.num 0)),
        ("balance", jsOr (jsField t "balance") (.num 0)),
        ("category", jsOr (jsField t "category") (.str ""))]

/-- One category-breakdown row of the bank summary sheet. -/
def bankCatRow (p : String × JsVal) : Except String JsVal := do
  let total ← jsGet p.2 "total"
  let count ← jsGet p.2 "count"
  pure (kvRow p.1.toUpper
    (.str ("₹" ++ jsDisplay (jsOr total (.num 0)) ++ " (" ++
           jsDisplay (jsOr count (.num 0)) ++ " transactions)")))

/-- Total mirror of `bankCatRow` on non-nullish category values. -/
def bankCatRowPure (p : String × JsVal) : JsVal :=
  kvRow p.1.toUpper
    (.str ("₹" ++ jsDisplay (jsOr (jsField p.2 "total") (.num 0)) ++ " (" ++
           jsDisplay (jsOr (jsField p.2 "count") (.num 0)) ++ " transactions)"))

/-- The transactions section of the bank builder: rows only when the field
is truthy and an array. -/
def bankTransBlock (trans : JsVal) : Except String (List JsVal) :=
  if jsTruthy trans && isArray trans then rowsMapM bankTransRow (jsArrayOf trans)
  else pure []

/-- The summary section of the bank builder. -/
def bankSummaryBlock (summary : JsVal) : Except String (List JsVal) :=
  if jsTruthy summary then do
    let totalDeposits ← jsGet summary "totalDeposits"
    let totalWithdrawals ← jsGet summary "totalWithdrawals"
    let netFlow ← jsGet summary "netFlow"
    let transactionCount ← jsGet summary "transactionCount"
    let avgDailySpending ← jsGet summary "avgDailySpending"
    pure [kvRow "Total Deposits" (jsOr totalDeposits (.num 0)),
          kvRow "Total Withdrawals" (jsOr totalWithdrawals (.num 0)),
          kvRow "Net Flow" (jsOr netFlow (.num 0)),
          kvRow "Transaction Count" (jsOr transactionCount (.num 0)),
          kvRow "Average Daily Spending" (jsOr avgDailySpending (.num 0))]
  else pure []

/-- The category-breakdown section of the bank builder. -/
def bankCatBlock (categories : JsVal) : Except String (List JsVal) :=
  if jsTruthy categories then rowsMapM bankCatRow (jsEntries categories)
  else pure []

/-- `createBankStatementExcel`. -/
def createBankStatementExcel (analysis : JsVal) : Except String Workbook := do
  let trans ← jsGet analysis "transactions"
  let transRows ← bankTransBlock trans
  let summary ← jsGet analysis "summary"
  let summaryRows ← bankSummaryBlock summary
  let categories ← jsGet analysis "categories"
  let catRows ← bankCatBlock categories
  pure ⟨[⟨"All Transactions", bankTransColumns, transRows⟩,
         ⟨"Summary", summaryColumns,
          summaryRows ++ [kvRow "" (.str ""), kvRow "Category Breakdown" (.str "")] ++
            catRows⟩]⟩

/-- Transactions list the bank builder renders (guarded by truthiness and
`Array.isArray`). -/
def bankTransListOf (a : JsVal) : List JsVal :=
  let t := jsField a "transactions"
  if jsTruthy t && isArray t then jsArrayOf t else []

/-- Summary rows rendered for a given summary value. -/
def bankSummaryRowsOfVal (s : JsVal) : List JsVal :=
  if jsTruthy s then
    [kvRow "Total Deposits" (jsOr (jsField s "totalDeposits") (.num 0)),
     kvRow "Total Withdrawals" (jsOr (jsField s "totalWithdrawals") (.num 0)),
     kvRow "Net Flow" (jsOr (jsField s "netFlow") (.num 0)),
     kvRow "Transaction Count" (jsOr (jsField s "transactionCount") (.num 0)),
     kvRow "Average Daily Spending" (jsOr (jsField s "avgDailySpending") (.num 0))]
  else []

/-- Summary rows the bank builder renders. -/
def bankSummaryRowsOf (a : JsVal) : List JsVal :=
  bankSummaryRowsOfVal (jsField a "summary")

/-- Category rows the bank builder renders. -/
def bankCatRowsOf (a : JsVal) : List JsVal :=
  let c := jsField a "categories"
  if jsTruthy c then (jsEntries c).map bankCatRowPure else []

/-- Total mirror of the bank workbook. -/
def bankWorkbookOf (a : JsVal) : Workbook :=
  ⟨[⟨"All Transactions", bankTransColumns, (bankTransListOf a).map bankRowPure⟩,
    ⟨"Summary", summaryColumns,
     bankSummaryRowsOf a ++ [kvRow "" (.str ""), kvRow "Category Breakdown" (.str "")] ++
       bankCatRowsOf a⟩]⟩

/-- The summary section of the credit builder. -/
def creditSummaryBlock (summary : JsVal) : Except String (List JsVal) :=
  if jsTruthy summary then do
    let totalSpent ← jsGet summary "totalSpent"
    let paymentMade ← jsGet summary "paymentMade"
    let outstandingBalance ← jsGet summary "outstandingBalance"
    pure [kvRow "Total Spent" (jsOr totalSpent (.num 0)),
          kvRow "Payment Made" (jsOr paymentMade (.num 0)),
          kvRow "Outstanding Balance" (jsOr outstandingBalance (.num 0))]
  else pure []

/-- `createCreditCardExcel`: transaction and subscription rows are passed
verbatim to `addRow`. -/
def createCreditCardExcel (analysis : JsVal) : Except String Workbook := do
  let trans ← jsGet analysis "transactions"
  let transRows := if jsTruthy trans && isArray trans then jsArrayOf trans else []
  let subs ← jsGet analysis "subscriptions"
  let subRows := if jsTruthy subs && isArray subs then jsArrayOf subs else []
  let summary ← jsGet analysis "summary"
  let summaryRows ← creditSummaryBlock summary
  pure ⟨[⟨"Transactions", creditTransColumns, transRows⟩,
         ⟨"Subscriptions", creditSubColumns, subRows⟩,
         ⟨"Summary", summaryColumns, summaryRows⟩]⟩

/-- Transactions list the credit builder renders. -/
def creditTransListOf (a : JsVal) : List JsVal :=
  let t := jsField a "transactions"
  if jsTruthy t && isArray t then jsArrayOf t else []

/-- Subscription rows the credit builder renders: exactly the entries of
the subscriptions array. -/
def creditSubsListOf (a : JsVal) : List JsVal :=
  let s := jsField a "subscriptions"
  if jsTruthy s && isArray s then jsArrayOf s else []

/-- Summary rows rendered for a given summary value. -/
def creditSummaryRowsOfVal (s : JsVal) : List JsVal :=
  if jsTruthy s then
    [kvRow "Total Spent" (jsOr (jsField s "totalSpent") (.num 0)),
     kvRow "Payment Made" (jsOr (jsField s "paymentMade") (.num 0)),
     kvRow "Outstanding Balance" (jsOr (jsField s "outstandingBalance") (.num 0))]
  else []

/-- Summary rows the credit builder renders. -/
def creditSummaryRowsOf (a : JsVal) : List JsVal :=
  creditSummaryRowsOfVal (jsField a "summary")

/-- Total mirror of the credit workbook. -/
def creditWorkbookOf (a : JsVal) : Workbook :=
  ⟨[⟨"Transactions", creditTransColumns, creditTransListOf a⟩,
    ⟨"Subscriptions", creditSubColumns, creditSubsListOf a⟩,
    ⟨"Summary", summaryColumns, creditSummaryRowsOf a⟩]⟩

/-- Response of `POST /api/generate-report`. -/
inductive ReportResponse : Type where
  | badRequest (body : JsVal) : ReportResponse
  | excelFile (wb : Workbook) : ReportResponse
  | serverError (body : JsVal) : ReportResponse

/-- `POST /api/generate-report`: requires a truthy analysis, selects the
layout on the document type, streams the workbook; builder exceptions
surface as 500. -/
def generateReport (analysis documentType : JsVal) : ReportResponse :=
  if jsTruthy analysis = false then
    .badRequest (.obj [("error", .str "Analysis data is required")])
  else
    match
      (if jsIsBank documentType then createBankStatementExcel analysis
       else createCreditCardExcel analysis) with
    | .ok wb => .excelFile wb
    | .error e =>
      .serverError (.obj [("error", .str "Failed to generate report"),
                          ("details", .str e)])

/-- Transaction entries, when an array is present, are not nullish (so
each property access in the row builder is safe). -/
def wfTransactions (a : JsVal) : Bool :=
  match a with
  | .obj fs =>
    match fs.lookup "transactions" with
    | some (.arr xs) => xs.all isNonNullish
    | _ => true
  | _ => true

/-- The categories field, when present and truthy, is an object whose
values are not nullish. -/
def wfCategories (a : JsVal) : Bool :=
  match a with
  | .obj fs =>
    match fs.lookup "categories" with
    | none => true
    | some (.obj cs) => cs.all fun p => isNonNullish p.2
    | some v => !(jsTruthy v)
  | _ => true

/-- Well-typedness of an analysis object for the render claim: an analysis
value that is not nullish, with safe transaction entries and a safe
categories field; every other field may be absent or of any type. -/
def wfAnalysis (a : JsVal) : Bool :=
  isNonNullish a && wfTransactions a && wfCategories a


/-! Concrete inputs used by witnesses and counterexamples. -/

/-- A store holding one session. -/
def demoStore : Store := fun x => if x = "sess1" then some [1, 2, 3] else none

/-- An empty store. -/
def emptyStore : Store := fun _ => none

/-- A password-protected loader: exactly one password opens the bytes. -/
def demoLoad : Bytes → String → PdfLoadResult := fun _ pw =>
  if pw = "secret" then .ok [9]
  else .err "Failed to decrypt PDF: incorrect password supplied"

/-- A passwordless loader that always opens. -/
def demoLoadOk : Bytes → PdfLoadResult := fun _ => .ok [0]

/-- A loader that reports encryption. -/
def demoLoadEncrypted : Bytes → PdfLoadResult := fun _ =>
  .err "Input document to PDFDocument.load is encrypted"

/-- A loader that fails for an unrelated reason. -/
def demoLoadCorrupt : Bytes → PdfLoadResult := fun _ =>
  .err "Failed to parse PDF document: invalid object"

/-- A text extractor returning a fixed statement text. -/
def demoExtract : Bytes → Except String (List Char) := fun _ =>
  .ok "Statement 01/02/2024 opening balance 100".data

/-- A model call returning a fixed response regardless of the prompt. -/
def demoLlmOf (rsp : List Char) : String → List Char → Except String (List Char) :=
  fun _ _ => .ok rsp

/-- A failing model call. -/
def demoLlmFail : String → List Char → Except String (List Char) :=
  fun _ _ => .error "fetch failed"

/-- A model response with no JSON anywhere. -/
def noJsonResponse : List Char := "The statement could not be analyzed.".data

/-- A model response with two separate top-level objects and no fence. -/
def twoObjectsResponse : List Char :=
  "pre \x7b\"a\":1\x7d mid \x7b\"b\":2\x7d post".data

/-- A model response with a fenced block after an earlier brace span. -/
def fencedResponse : List Char :=
  "note \x7b\"z\":9\x7d ```json\n\x7b\"a\":1\x7d\n``` bye".data

/-- A model response with braces but no fence. -/
def plainObjectResponse : List Char :=
  "result: \x7b\"ok\":true\x7d thanks".data

/-- An analysis object with only a subscriptions array. -/
def demoAnalysis : JsVal :=
  .obj [("subscriptions", .arr [.obj [("merchant", .str "Netflix"),
                                      ("amount", .num 499)],
                                .obj []])]

/-! Theorems for the claims. -/

/-- C8: the delete operation of the temporary-file store never propagates
an error: after deleting, the entry is gone and no other entry changes;
deleting an absent id completes with the store unchanged; a failing unlink
is swallowed; and loading an absent id yields `none` rather than
throwing. -/
theorem temp_store_delete_and_load_total (st : Store) (sessionId : String) :
    (deleteTemporaryFile st sessionId) sessionId = none ∧
    (∀ x, x ≠ sessionId → deleteTemporaryFile st sessionId x = st x) ∧
    (st sessionId = none → deleteTemporaryFile st sessionId = st) ∧
    (∀ e : String, deleteTemporaryFileWith (.error e) st = st) ∧
    (st sessionId = none → getTemporaryFile st sessionId = none) := by
  refine ⟨?_, ?_, ?_, fun e => rfl, fun h => h⟩
  · cases h : st sessionId <;>
      simp [deleteTemporaryFile, deleteTemporaryFileWith, fsUnlink, h]
  · intro x hx
    cases h : st sessionId <;>
      simp [deleteTemporaryFile, deleteTemporaryFileWith, fsUnlink, h, hx]
  · intro h
    simp [deleteTemporaryFile, deleteTemporaryFileWith, fsUnlink, h]

/-- Witness for C8 at a concrete store. -/
theorem temp_store_delete_and_load_total_witness :
    (deleteTemporaryFile demoStore "sess1") "sess1" = none ∧
    (deleteTemporaryFile demoStore "sess1") "other" = demoStore "other" ∧
    getTemporaryFile demoStore "gone" = none := by
  refine ⟨(temp_store_delete_and_load_total demoStore "sess1").1,
          (temp_store_delete_and_load_total demoStore "sess1").2.1 "other" (by decide),
          (temp_store_delete_and_load_total demoStore "gone").2.2.2.2 rfl⟩

/-- C10: the document type is never validated: every value other than the
string bank (undefined included) selects the credit-card prompt in the
analysis handlers and makes the report endpoint behave exactly as the
string credit does. -/
theorem documentType_not_validated (dt : JsVal) (h : jsIsBank dt = false) :
    (∀ text, promptFor dt text = getCreditCardPrompt text) ∧
    (∀ a, generateReport a dt = generateReport a (.str "credit")) := by
  constructor
  · intro text
    simp [promptFor, h]
  · intro a
    have hc : jsIsBank (JsVal.str "credit") = false := by decide
    simp [generateReport, h, hc]

/-- Witness for C10 at the undefined document type. -/
theorem documentType_not_validated_witness :
    promptFor JsVal.undefined "x".data = getCreditCardPrompt "x".data ∧
    generateReport (JsVal.str "a") JsVal.undefined =
      generateReport (JsVal.str "a") (JsVal.str "credit") :=
  ⟨(documentType_not_validated JsVal.undefined rfl).1 "x".data,
   (documentType_not_validated JsVal.undefined rfl).2 (JsVal.str "a")⟩

/-- C5: checking a PDF that opens without a password yields
`passwordRequired = false` with a fresh session holding the bytes; an open
failure mentioning encryption yields status `password_required` with
`passwordRequired = true` and the fresh session; any other open failure is
a generic 500. -/
theorem checkPdf_outcomes (load0 : Bytes → PdfLoadResult) (st : Store)
    (freshId fileName : String) (fileSize : ℚ) (pdfBuffer : Bytes) :
    (∀ doc, load0 pdfBuffer = .ok doc →
      (checkPdf load0 st freshId (some (fileName, fileSize, pdfBuffer))).1 =
        (200, .obj [("status", .str "success"),
                    ("passwordRequired", .bool false),
                    ("message", .str "No password required. Click to continue."),
                    ("fileName", .str fileName),
                    ("fileSize", .num fileSize),
                    ("sessionId", .str freshId)]) ∧
      (checkPdf load0 st freshId (some (fileName, fileSize, pdfBuffer))).2 freshId =
        some pdfBuffer) ∧
    (∀ m, load0 pdfBuffer = .err m →
      listContains "encrypted".data m.data = true →
      (checkPdf load0 st freshId (some (fileName, fileSize, pdfBuffer))).1 =
        (200, .obj [("status", .str "password_required"),
                    ("passwordRequired", .bool true),
                    ("message", .str "This PDF is password protected. Please enter the password."),
                    ("fileName", .str fileName),
                    ("fileSize", .num fileSize),
                    ("sessionId", .str freshId)]) ∧
      (checkPdf load0 st freshId (some (fileName, fileSize, pdfBuffer))).2 freshId =
        some pdfBuffer) ∧
    (∀ m, load0 pdfBuffer = .err m →
      listContains "encrypted".data m.data = false →
      (checkPdf load0 st freshId (some (fileName, fileSize, pdfBuffer))).1 =
        (500, .obj [("error", .str "Failed to check PDF"),
                    ("details", .str m)])) := by
  refine ⟨fun doc hdoc => ?_, fun m hm henc => ?_, fun m hm henc => ?_⟩
  · simp [checkPdf, hdoc, saveTemporaryFile]
  · simp [checkPdf, hm, henc, saveTemporaryFile]
  · simp [checkPdf, hm, henc]

/-- Witness for C5: all three outcomes at concrete loaders. -/
theorem checkPdf_outcomes_witness :
    (checkPdf demoLoadOk emptyStore "fresh" (some ("f.pdf", 10, [7]))).1.1 = 200 ∧
    (checkPdf demoLoadOk emptyStore "fresh" (some ("f.pdf", 10, [7]))).2 "fresh" = some [7] ∧
    (checkPdf demoLoadEncrypted emptyStore "fresh" (some ("f.pdf", 10, [7]))).1 =
      (200, .obj [("status", .str "password_required"),
                  ("passwordRequired", .bool true),
                  ("message", .str "This PDF is password protected. Please enter the password."),
                  ("fileName", .str "f.pdf"),
                  ("fileSize", .num 10),
                  ("sessionId", .str "fresh")]) ∧
    (checkPdf demoLoadCorrupt emptyStore "fresh" (some ("f.pdf", 10, [7]))).1.1 = 500 := by
  refine ⟨?_, ?_, ?_, ?_⟩
  · exact congrArg Prod.fst
      (((checkPdf_outcomes demoLoadOk emptyStore "fresh" "f.pdf" 10 [7]).1 [0] rfl).1)
  · exact ((checkPdf_outcomes demoLoadOk emptyStore "fresh" "f.pdf" 10 [7]).1 [0] rfl).2
  · exact ((checkPdf_outcomes demoLoadEncrypted emptyStore "fresh" "f.pdf" 10 [7]).2.1
      "Input document to PDFDocument.load is encrypted" rfl (by decide)).1
  · exact congrArg Prod.fst
      ((checkPdf_outcomes demoLoadCorrupt emptyStore "fresh" "f.pdf" 10 [7]).2.2
        "Failed to parse PDF document: invalid object" rfl (by decide))


/-- C2, counterexample: the claim says every incorrect password on an
existing session yields 401/`invalid_password`; the empty string is an
incorrect password (the loader rejects it with a wrong-password message),
yet the handler returns 400 before looking at the session, because the
falsiness check on the password field fires first. -/
theorem unlock_empty_password_counterexample :
    demoStore "sess1" = some [1, 2, 3] ∧
    demoLoad [1, 2, 3] "" = .err "Failed to decrypt PDF: incorrect password supplied" ∧
    listContains "password".data "Failed to decrypt PDF: incorrect password supplied".data = true ∧
    (unlockPdf demoLoad demoStore "sess1" "").1.1 = 400 ∧
    (unlockPdf demoLoad demoStore "sess1" "").1.1 ≠ 401 ∧
    objLookup (unlockPdf demoLoad demoStore "sess1" "").1.2 "status" = none := by
  refine ⟨rfl, rfl, by decide, rfl, by decide, rfl⟩

/-- C2 as amended: for requests with a non-empty session id and a non-empty
password whose session file exists, a load success returns the derived
session id with the unlocked bytes stored under it; a load failure whose
message mentions `password` returns 401/`invalid_password` (never a 500);
and when the session file is absent the response is a 404. A request with
an empty password is rejected with 400 before the session is consulted. -/
theorem unlock_outcomes (load : Bytes → String → PdfLoadResult) (st : Store)
    (sessionId password : String) (pdfBuffer : Bytes)
    (hsid : sessionId ≠ "") (hpw : password ≠ "")
    (hbuf : st sessionId = some pdfBuffer) :
    (∀ out, load pdfBuffer password = .ok out →
      (unlockPdf load st sessionId password).1 =
        (200, .obj [("status", .str "success"),
                    ("message", .str "PDF unlocked successfully! Processing..."),
                    ("sessionId", .str (sessionId ++ "_unlocked"))]) ∧
      (unlockPdf load st sessionId password).2 (sessionId ++ "_unlocked") = some out) ∧
    (∀ m, load pdfBuffer password = .err m →
      listContains "password".data m.data = true →
      (unlockPdf load st sessionId password).1 =
        (401, .obj [("status", .str "invalid_password"),
                    ("error", .str "Incorrect password. Please try again.")])) ∧
    (∀ st2 : Store, st2 sessionId = none →
      (unlockPdf load st2 sessionId password).1 =
        (404, .obj [("error", .str "Session expired or file not found")])) := by
  refine ⟨fun out hout => ?_, fun m hm hpwmsg => ?_, fun st2 habs => ?_⟩
  · simp [unlockPdf, hsid, hpw, getTemporaryFile, hbuf, hout, saveTemporaryFile]
  · simp [unlockPdf, hsid, hpw, getTemporaryFile, hbuf, hm, hpwmsg]
  · simp [unlockPdf, hsid, hpw, getTemporaryFile, habs]

/-- Witness for C2 as amended: the three outcomes at the concrete store and
loader. -/
theorem unlock_outcomes_witness :
    (unlockPdf demoLoad demoStore "sess1" "secret").1 =
      (200, .obj [("status", .str "success"),
                  ("message", .str "PDF unlocked successfully! Processing..."),
                  ("sessionId", .str "sess1_unlocked")]) ∧
    (unlockPdf demoLoad demoStore "sess1" "secret").2 "sess1_unlocked" = some [9] ∧
    (unlockPdf demoLoad demoStore "sess1" "wrong").1.1 = 401 ∧
    (unlockPdf demoLoad emptyStore "sess1" "secret").1.1 = 404 := by
  have hok := (unlock_outcomes demoLoad demoStore "sess1" "secret" [1, 2, 3]
    (by decide) (by decide) rfl).1 [9] rfl
  have h401 := (unlock_outcomes demoLoad demoStore "sess1" "wrong" [1, 2, 3]
    (by decide) (by decide) rfl).2.1
    "Failed to decrypt PDF: incorrect password supplied" rfl (by decide)
  have h404 := (unlock_outcomes demoLoad demoStore "sess1" "secret" [1, 2, 3]
    (by decide) (by decide) rfl).2.2 emptyStore rfl
  exact ⟨hok.1, hok.2, congrArg Prod.fst h401, congrArg Prod.fst h404⟩

/-- C6: a process-pdf request whose session resolves extracts the text,
deletes the temp file, and on a successful model call returns status 200
with a body of exactly the four fields, `status` being `success`,
`textLength` the length of the extracted text and `documentType` echoing
the request field; afterwards the session id no longer resolves. -/
theorem processPdf_success_shape
    (extract : Bytes → Except String (List Char))
    (llm : String → List Char → Except String (List Char))
    (st : Store) (sessionId : String) (type : JsVal)
    (pdfBuffer : Bytes) (extractedText rsp : List Char)
    (hbuf : st sessionId = some pdfBuffer)
    (hex : extract pdfBuffer = .ok extractedText)
    (hllm : ∀ m p, llm m p = .ok rsp) :
    (processPdf extract llm st sessionId type).1 =
      (200, .obj [("status", .str "success"),
                  ("analysis", match extractJsonCore rsp with
                               | some v => v
                               | none => processPdfFallback rsp),
                  ("documentType", type),
                  ("textLength", .num (extractedText.length : ℚ))]) ∧
    (processPdf extract llm st sessionId type).2 sessionId = none := by
  constructor
  · simp [processPdf, getTemporaryFile, hbuf, hex, hllm]
  · simp [processPdf, getTemporaryFile, hbuf, hex, hllm,
          deleteTemporaryFile, deleteTemporaryFileWith, fsUnlink]

/-- Witness for C6 at concrete store, extractor and model. -/
theorem processPdf_success_shape_witness :
    (processPdf demoExtract (demoLlmOf plainObjectResponse) demoStore "sess1"
        (.str "bank")).1 =
      (200, .obj [("status", .str "success"),
                  ("analysis", match extractJsonCore plainObjectResponse with
                               | some v => v
                               | none => processPdfFallback plainObjectResponse),
                  ("documentType", .str "bank"),
                  ("textLength", .num (("Statement 01/02/2024 opening balance 100".data).length : ℚ))]) ∧
    (processPdf demoExtract (demoLlmOf plainObjectResponse) demoStore "sess1"
        (.str "bank")).2 "sess1" = none :=
  processPdf_success_shape demoExtract (demoLlmOf plainObjectResponse) demoStore
    "sess1" (.str "bank") [1, 2, 3] "Statement 01/02/2024 opening balance 100".data
    plainObjectResponse rfl rfl (fun _ _ => rfl)

/-- C9: the temp file is deleted before the model call, so when extraction
succeeds and the model call fails the handler returns a 500 while the
session is already consumed; retrying the same session id now yields
404. -/
theorem processPdf_consumes_session_on_model_error
    (extract : Bytes → Except String (List Char))
    (llm : String → List Char → Except String (List Char))
    (st : Store) (sessionId : String) (type : JsVal)
    (pdfBuffer : Bytes) (extractedText : List Char) (emsg : String)
    (hbuf : st sessionId = some pdfBuffer)
    (hex : extract pdfBuffer = .ok extractedText)
    (hllm : ∀ m p, llm m p = .error emsg) :
    (processPdf extract llm st sessionId type).1 =
      (500, .obj [("error", .str "Failed to process PDF"),
                  ("details", .str emsg)]) ∧
    (processPdf extract llm st sessionId type).2 sessionId = none ∧
    (processPdf extract llm ((processPdf extract llm st sessionId type).2)
        sessionId type).1.1 = 404 := by
  have hdel : (processPdf extract llm st sessionId type).2 sessionId = none := by
    simp [processPdf, getTemporaryFile, hbuf, hex, hllm,
          deleteTemporaryFile, deleteTemporaryFileWith, fsUnlink]
  refine ⟨?_, hdel, ?_⟩
  · simp [processPdf, getTemporaryFile, hbuf, hex, hllm]
  · have h404 : ∀ st2 : Store, st2 sessionId = none →
        (processPdf extract llm st2 sessionId type).1.1 = 404 := by
      intro st2 h2
      simp [processPdf, getTemporaryFile, h2]
    exact h404 _ hdel

/-- Witness for C9 at concrete store, extractor and failing model. -/
theorem processPdf_consumes_session_on_model_error_witness :
    (processPdf demoExtract demoLlmFail demoStore "sess1" (.str "bank")).1 =
      (500, .obj [("error", .str "Failed to process PDF"),
                  ("details", .str "fetch failed")]) ∧
    (processPdf demoExtract demoLlmFail demoStore "sess1" (.str "bank")).2 "sess1" = none ∧
    (processPdf demoExtract demoLlmFail
        ((processPdf demoExtract demoLlmFail demoStore "sess1" (.str "bank")).2)
        "sess1" (.str "bank")).1.1 = 404 :=
  processPdf_consumes_session_on_model_error demoExtract demoLlmFail demoStore
    "sess1" (.str "bank") [1, 2, 3] "Statement 01/02/2024 opening balance 100".data
    "fetch failed" rfl rfl (fun _ _ => rfl)


/-- C1, counterexample: on a response with no parseable JSON, the
process-pdf fallback object carries the error flag and the truncated raw
output but no `alerts` and no `categories` field, although the claim
asserts an empty categorization and a non-empty alert for both handlers;
the transport status is still 200/`success`. -/
theorem processPdf_fallback_missing_alerts_counterexample :
    extractJsonCore noJsonResponse = none ∧
    (processPdf demoExtract (demoLlmOf noJsonResponse) demoStore "sess1"
        (.str "bank")).1.1 = 200 ∧
    objLookup (processPdf demoExtract (demoLlmOf noJsonResponse) demoStore "sess1"
        (.str "bank")).1.2 "status" = some (.str "success") ∧
    objLookup (processPdf demoExtract (demoLlmOf noJsonResponse) demoStore "sess1"
        (.str "bank")).1.2 "analysis" =
      some (.obj [("summary", .obj [("error", .str "Analysis completed but formatting failed")]),
                  ("rawResponse", .str "The statement could not be analyzed.")]) ∧
    objLookup (.obj [("summary", .obj [("error", .str "Analysis completed but formatting failed")]),
                     ("rawResponse", .str "The statement could not be analyzed.")]) "alerts" = none ∧
    objLookup (.obj [("summary", .obj [("error", .str "Analysis completed but formatting failed")]),
                     ("rawResponse", .str "The statement could not be analyzed.")]) "categories" = none :=
  ⟨rfl, rfl, rfl, rfl, rfl, rfl⟩

/-- C1 as amended: on a model response with no parseable JSON neither
analysis handler throws and both report transport status 200 with
`success`; `/api/analyze-text` falls back to an object with an error flag,
an empty categorization, a non-empty alert and the raw output truncated to
1000 characters, while `/api/process-pdf` falls back to an object with only
the error flag and the truncated raw output (no categorization or alerts
field). -/
theorem analyze_fallback_objects
    (rsp : List Char) (hrsp : extractJsonCore rsp = none)
    (llm : String → List Char → Except String (List Char))
    (hllm : ∀ m p, llm m p = .ok rsp)
    (text : List Char) (htext : text.isEmpty = false) (dt : JsVal)
    (st : Store) (extract : Bytes → Except String (List Char))
    (sessionId : String) (pdfBuffer : Bytes) (extractedText : List Char)
    (hbuf : st sessionId = some pdfBuffer)
    (hex : extract pdfBuffer = .ok extractedText) :
    analyzeText llm text dt =
      (200, .obj [("status", .str "success"),
                  ("analysis", .obj [("summary", .obj [("totalDeposits", .num 0),
                                                       ("totalWithdrawals", .num 0),
                                                       ("netFlow", .num 0),
                                                       ("error", .str "Analysis completed but formatting failed")]),
                                     ("categories", .obj []),
                                     ("alerts", .arr [.str "Analysis completed but data formatting failed"]),
                                     ("rawResponse", .str ⟨rsp.take 1000⟩)]),
                  ("documentType", dt),
                  ("textLength", .num (text.length : ℚ))]) ∧
    (processPdf extract llm st sessionId dt).1 =
      (200, .obj [("status", .str "success"),
                  ("analysis", .obj [("summary", .obj [("error", .str "Analysis completed but formatting failed")]),
                                     ("rawResponse", .str ⟨rsp.take 1000⟩)]),
                  ("documentType", dt),
                  ("textLength", .num (extractedText.length : ℚ))]) := by
  constructor
  · simp [analyzeText, htext, hllm, hrsp, analyzeTextFallback]
  · simp [processPdf, getTemporaryFile, hbuf, hex, hllm, hrsp, processPdfFallback]

/-- Witness for C1 as amended at a concrete response without JSON. -/
theorem analyze_fallback_objects_witness :
    analyzeText (demoLlmOf noJsonResponse) "txt".data (.str "credit") =
      (200, .obj [("status", .str "success"),
                  ("analysis", .obj [("summary", .obj [("totalDeposits", .num 0),
                                                       ("totalWithdrawals", .num 0),
                                                       ("netFlow", .num 0),
                                                       ("error", .str "Analysis completed but formatting failed")]),
                                     ("categories", .obj []),
                                     ("alerts", .arr [.str "Analysis completed but data formatting failed"]),
                                     ("rawResponse", .str ⟨noJsonResponse.take 1000⟩)]),
                  ("documentType", .str "credit"),
                  ("textLength", .num (("txt".data).length : ℚ))]) ∧
    (processPdf demoExtract (demoLlmOf noJsonResponse) demoStore "sess1" (.str "credit")).1 =
      (200, .obj [("status", .str "success"),
                  ("analysis", .obj [("summary", .obj [("error", .str "Analysis completed but formatting failed")]),
                                     ("rawResponse", .str ⟨noJsonResponse.take 1000⟩)]),
                  ("documentType", .str "credit"),
                  ("textLength", .num (("Statement 01/02/2024 opening balance 100".data).length : ℚ))]) :=
  analyze_fallback_objects noJsonResponse rfl (demoLlmOf noJsonResponse)
    (fun _ _ => rfl) "txt".data rfl (.str "credit") demoStore demoExtract
    "sess1" [1, 2, 3] "Statement 01/02/2024 opening balance 100".data rfl rfl

/-- C3, counterexample: on a response with two separate top-level objects
and no fence, the first top-level span parses, but the code parses the
greedy span from the first left brace to the last right brace, which fails,
so the extraction yields the fallback rather than the first span. -/
theorem extraction_greedy_span_counterexample :
    matchFencedJson twoObjectsResponse = none ∧
    specFirstTopLevelSpan twoObjectsResponse = some "\x7b\"a\":1\x7d".data ∧
    (jsonParse "\x7b\"a\":1\x7d".data).isSome = true ∧
    braceMatch twoObjectsResponse = some "\x7b\"a\":1\x7d mid \x7b\"b\":2\x7d".data ∧
    extractJsonCore twoObjectsResponse = none ∧
    ∀ v : JsVal, extractJsonCore twoObjectsResponse ≠ some v := by
  refine ⟨rfl, rfl, rfl, rfl, rfl, ?_⟩
  intro v h
  rw [show extractJsonCore twoObjectsResponse = none from rfl] at h
  exact Option.noConfusion h

/-- C3 as amended: a fenced block with non-empty capture is parsed in
preference to any other brace span; when no fenced block matches, the span
from the first left brace to the last right brace of the whole text is
parsed instead (not the first top-level span). -/
theorem extraction_fenced_preference (s : List Char) :
    (∀ content, matchFencedJson s = some content → content ≠ [] →
      extractJsonCore s = jsonParse (trimChars content)) ∧
    (matchFencedJson s = none →
      extractJsonCore s = (braceMatch s).bind jsonParse) := by
  constructor
  · intro content hc hne
    simp [extractJsonCore, hc, hne]
  · intro hn
    simp [extractJsonCore, hn, braceRoute]

/-- Witness for C3 as amended: a fenced response (with an earlier brace
span) and a plain response. -/
theorem extraction_fenced_preference_witness :
    extractJsonCore fencedResponse = jsonParse (trimChars "\n\x7b\"a\":1\x7d\n".data) ∧
    extractJsonCore plainObjectResponse = (braceMatch plainObjectResponse).bind jsonParse :=
  ⟨(extraction_fenced_preference fencedResponse).1 "\n\x7b\"a\":1\x7d\n".data rfl (by decide),
   (extraction_fenced_preference plainObjectResponse).2 rfl⟩


set_option maxRecDepth 2048 in
/-- C4: for every text longer than the 500000-character threshold, both
prompt builders (deterministic functions of the text) produce output that
contains the literal first 100000 characters, the literal omission marker
and the literal last 100000 characters, and that never contains the full
input text (the output is strictly shorter than the input). -/
theorem prompt_truncation (text : List Char) (h : text.length > 500000) :
    (text.take 100000 <:+: getBankStatementPrompt text) ∧
    (omissionMarker <:+: getBankStatementPrompt text) ∧
    (text.drop (text.length - 100000) <:+: getBankStatementPrompt text) ∧
    ¬ text <:+: getBankStatementPrompt text ∧
    (text.take 100000 <:+: getCreditCardPrompt text) ∧
    (omissionMarker <:+: getCreditCardPrompt text) ∧
    (text.drop (text.length - 100000) <:+: getCreditCardPrompt text) ∧
    ¬ text <:+: getCreditCardPrompt text := by
  have htrim : trimmedText text =
      text.take 100000 ++ omissionMarker ++ text.drop (text.length - 100000) := by
    simp [trimmedText, h]
  have htake : (text.take 100000).length = 100000 := by
    rw [List.length_take]
    omega
  have hdrop : (text.drop (text.length - 100000)).length = 100000 := by
    rw [List.length_drop]
    omega
  have hmlen : omissionMarker.length = 43 := rfl
  have hwins : ∀ A B : List Char,
      (text.take 100000 <:+: (A ++ trimmedText text ++ B)) ∧
      (omissionMarker <:+: (A ++ trimmedText text ++ B)) ∧
      (text.drop (text.length - 100000) <:+: (A ++ trimmedText text ++ B)) := by
    intro A B
    rw [htrim]
    exact ⟨⟨A, omissionMarker ++ text.drop (text.length - 100000) ++ B, by simp⟩,
           ⟨A ++ text.take 100000, text.drop (text.length - 100000) ++ B, by simp⟩,
           ⟨A ++ (text.take 100000 ++ omissionMarker), B, by simp⟩⟩
  have hnotinf : ∀ A B : List Char, A.length + B.length ≤ 4000 →
      ¬ text <:+: (A ++ trimmedText text ++ B) := by
    intro A B hAB hinf
    have hle := hinf.length_le
    rw [htrim] at hle
    simp only [List.length_append, htake, hdrop, hmlen] at hle
    omega
  have hrule : (bankPromptRule4 text).length ≤ 40 := by
    unfold bankPromptRule4
    split
    · decide
    · decide
  have hbankEq : getBankStatementPrompt text =
      (bankPromptPre ++ bankPromptRule4 text ++ bankPromptMid) ++
        trimmedText text ++ bankPromptPost := by
    simp [getBankStatementPrompt, List.append_assoc]
  have hcreditEq : getCreditCardPrompt text =
      creditPromptPre ++ trimmedText text ++ creditPromptPost := rfl
  have epre1 : bankPromptPreC1.data.length = 250 := rfl
  have epre2 : bankPromptPreC2.data.length = 120 := rfl
  have emid1 : bankPromptMidC1.data.length = 250 := rfl
  have emid2 : bankPromptMidC2.data.length = 250 := rfl
  have emid3 : bankPromptMidC3.data.length = 250 := rfl
  have emid4 : bankPromptMidC4.data.length = 250 := rfl
  have emid5 : bankPromptMidC5.data.length = 250 := rfl
  have emid6 : bankPromptMidC6.data.length = 250 := rfl
  have emid7 : bankPromptMidC7.data.length = 250 := rfl
  have emid8 : bankPromptMidC8.data.length = 250 := rfl
  have emid9 : bankPromptMidC9.data.length = 250 := rfl
  have emid10 : bankPromptMidC10.data.length = 250 := rfl
  have emid11 : bankPromptMidC11.data.length = 209 := rfl
  have epost1 : bankPromptPostC1.data.length = 3 := rfl
  have ecre1 : creditPromptPreC1.data.length = 250 := rfl
  have ecre2 : creditPromptPreC2.data.length = 250 := rfl
  have ecre3 : creditPromptPreC3.data.length = 250 := rfl
  have ecre4 : creditPromptPreC4.data.length = 250 := rfl
  have ecre5 : creditPromptPreC5.data.length = 250 := rfl
  have ecre6 : creditPromptPreC6.data.length = 250 := rfl
  have ecre7 : creditPromptPreC7.data.length = 250 := rfl
  have ecre8 : creditPromptPreC8.data.length = 250 := rfl
  have ecre9 : creditPromptPreC9.data.length = 105 := rfl
  have ecpost1 : creditPromptPostC1.data.length = 3 := rfl
  have hbankA : (bankPromptPre ++ bankPromptRule4 text ++ bankPromptMid).length +
      (bankPromptPost).length ≤ 4000 := by
    simp only [bankPromptPre, bankPromptMid, bankPromptPost, List.length_append,
      epre1, epre2, emid1, emid2, emid3, emid4, emid5, emid6, emid7, emid8, emid9, emid10, emid11, epost1]
    omega
  have hcreditA : (creditPromptPre).length + (creditPromptPost).length ≤ 4000 := by
    simp only [creditPromptPre, creditPromptPost, List.length_append,
      ecre1, ecre2, ecre3, ecre4, ecre5, ecre6, ecre7, ecre8, ecre9, ecpost1]
    omega
  rw [hbankEq, hcreditEq]
  exact ⟨(hwins _ _).1, (hwins _ _).2.1, (hwins _ _).2.2, hnotinf _ _ hbankA,
         (hwins _ _).1, (hwins _ _).2.1, (hwins _ _).2.2, hnotinf _ _ hcreditA⟩

/-- Witness for C4 at a concrete oversized text. -/
theorem prompt_truncation_witness :
    (omissionMarker <:+: getBankStatementPrompt (List.replicate 500001 'a')) ∧
    (¬ List.replicate 500001 'a' <:+: getBankStatementPrompt (List.replicate 500001 'a')) ∧
    (omissionMarker <:+: getCreditCardPrompt (List.replicate 500001 'a')) ∧
    (¬ List.replicate 500001 'a' <:+: getCreditCardPrompt (List.replicate 500001 'a')) := by
  have H := prompt_truncation (List.replicate 500001 'a')
    (by rw [List.length_replicate]; omega)
  exact ⟨H.2.1, H.2.2.2.1, H.2.2.2.2.2.1, H.2.2.2.2.2.2.2⟩


/-! Helper lemmas for the renderer proofs. -/

/-- Bind on a successful Except computation. -/
theorem ok_bind {ε α β : Type} (a : α) (f : α → Except ε β) :
    (Except.ok a : Except ε α) >>= f = f a := rfl

/-- Pure in the Except monad is ok. -/
theorem except_pure {ε α : Type} (a : α) :
    (pure a : Except ε α) = Except.ok a := rfl

/-- Property access on a non-nullish receiver never throws. -/
theorem jsGet_ok (v : JsVal) (h : isNonNullish v = true) (k : String) :
    jsGet v k = .ok (jsField v k) := by
  cases v <;> simp_all [jsGet, isNonNullish]

/-- A truthy value is non-nullish. -/
theorem isNonNullish_of_truthy (v : JsVal) (h : jsTruthy v = true) :
    isNonNullish v = true := by
  cases v <;> simp_all [jsTruthy, isNonNullish]

/-- Pointwise-successful traversal collects all rows. -/
theorem rowsMapM_ok {α : Type} {f : α → Except String JsVal} {g : α → JsVal}
    (l : List α) (h : ∀ t ∈ l, f t = .ok (g t)) :
    rowsMapM f l = .ok (l.map g) := by
  induction l with
  | nil => rfl
  | cons a l ih =>
    have ha := h a (List.mem_cons_self a l)
    have hl := ih fun t ht => h t (List.mem_cons_of_mem a ht)
    simp [rowsMapM, ha, hl, ok_bind, except_pure]

/-- A non-nullish transaction element yields its defaulted row. -/
theorem bankTransRow_ok (t : JsVal) (h : isNonNullish t = true) :
    bankTransRow t = .ok (bankRowPure t) := by
  cases t <;> first | rfl | simp [isNonNullish] at h

/-- A non-nullish category value yields its breakdown row. -/
theorem bankCatRow_ok (p : String × JsVal) (h : isNonNullish p.2 = true) :
    bankCatRow p = .ok (bankCatRowPure p) := by
  obtain ⟨k, v⟩ := p
  cases v <;> first | rfl | simp [isNonNullish] at h

/-- Safe transaction entries from well-typedness. -/
theorem wfTransactions_spec (a : JsVal) (h : wfTransactions a = true) :
    ∀ t ∈ jsArrayOf (jsField a "transactions"), isNonNullish t = true := by
  intro t ht
  cases a with
  | obj fs =>
    rcases hl : fs.lookup "transactions" with _ | v
    · simp [jsField, hl, jsArrayOf] at ht
    · cases v <;> simp_all [jsField, hl, jsArrayOf, wfTransactions, List.all_eq_true]
  | undefined => simp [jsField, jsArrayOf] at ht
  | null => simp [jsField, jsArrayOf] at ht
  | bool b => simp [jsField, jsArrayOf] at ht
  | num q => simp [jsField, jsArrayOf] at ht
  | str s => simp [jsField, jsArrayOf] at ht
  | arr xs => simp [jsField, jsArrayOf] at ht

/-- Safe category values from well-typedness. -/
theorem wfCategories_spec (a : JsVal) (h : wfCategories a = true) :
    ∀ p ∈ jsEntries (jsField a "categories"), isNonNullish p.2 = true := by
  intro p hp
  obtain ⟨pk, pv⟩ := p
  cases a with
  | obj fs =>
    rcases hl : fs.lookup "categories" with _ | v
    · simp [jsField, hl, jsEntries] at hp
    · cases v with
      | obj cs =>
        simp_all only [jsField, hl, jsEntries, wfCategories, List.all_eq_true,
          Option.getD_some]
        exact h (pk, pv) hp
      | undefined => simp_all [jsField, hl, jsEntries]
      | null => simp_all [jsField, hl, jsEntries]
      | bool b => simp_all [jsField, hl, jsEntries]
      | num q => simp_all [jsField, hl, jsEntries]
      | str s => simp_all [jsField, hl, jsEntries]
      | arr xs => simp_all [jsField, hl, jsEntries]
  | undefined => simp [jsField, jsEntries] at hp
  | null => simp [jsField, jsEntries] at hp
  | bool b => simp [jsField, jsEntries] at hp
  | num q => simp [jsField, jsEntries] at hp
  | str s => simp [jsField, jsEntries] at hp
  | arr xs => simp [jsField, jsEntries] at hp

/-- The transactions section renders the guarded list of defaulted rows. -/
theorem bankTransBlock_ok (trans : JsVal)
    (h : ∀ t ∈ jsArrayOf trans, isNonNullish t = true) :
    bankTransBlock trans =
      .ok ((if jsTruthy trans && isArray trans then jsArrayOf trans else []).map
        bankRowPure) := by
  cases hc : jsTruthy trans && isArray trans
  · simp [bankTransBlock, hc, except_pure]
  · simp [bankTransBlock, hc,
          rowsMapM_ok (jsArrayOf trans) fun t ht => bankTransRow_ok t (h t ht)]

/-- The bank summary section renders its five defaulted rows when the
summary is truthy. -/
theorem bankSummaryBlock_ok (s : JsVal) :
    bankSummaryBlock s = .ok (bankSummaryRowsOfVal s) := by
  cases hs : jsTruthy s
  · simp [bankSummaryBlock, bankSummaryRowsOfVal, hs, except_pure]
  · simp [bankSummaryBlock, bankSummaryRowsOfVal, hs,
          jsGet_ok s (isNonNullish_of_truthy s hs), ok_bind, except_pure]

/-- The category section renders the guarded breakdown rows. -/
theorem bankCatBlock_ok (c : JsVal)
    (h : ∀ p ∈ jsEntries c, isNonNullish p.2 = true) :
    bankCatBlock c =
      .ok (if jsTruthy c then (jsEntries c).map bankCatRowPure else []) := by
  cases hc : jsTruthy c
  · simp [bankCatBlock, hc, except_pure]
  · simp [bankCatBlock, hc,
          rowsMapM_ok (jsEntries c) fun p hp => bankCatRow_ok p (h p hp)]

/-- The credit summary section renders its three defaulted rows when the
summary is truthy. -/
theorem creditSummaryBlock_ok (s : JsVal) :
    creditSummaryBlock s = .ok (creditSummaryRowsOfVal s) := by
  cases hs : jsTruthy s
  · simp [creditSummaryBlock, creditSummaryRowsOfVal, hs, except_pure]
  · simp [creditSummaryBlock, creditSummaryRowsOfVal, hs,
          jsGet_ok s (isNonNullish_of_truthy s hs), ok_bind, except_pure]

/-- The bank builder succeeds on every well-typed analysis and renders the
mirror workbook. -/
theorem createBank_ok (a : JsVal) (ha : wfAnalysis a = true) :
    createBankStatementExcel a = .ok (bankWorkbookOf a) := by
  have hparts := ha
  simp only [wfAnalysis, Bool.and_eq_true] at hparts
  obtain ⟨⟨hnn, htrw⟩, hcatw⟩ := hparts
  have htr := wfTransactions_spec a htrw
  have hcat := wfCategories_spec a hcatw
  simp [createBankStatementExcel, jsGet_ok a hnn, ok_bind, except_pure,
        bankTransBlock_ok _ htr, bankSummaryBlock_ok, bankCatBlock_ok _ hcat,
        bankWorkbookOf, bankTransListOf, bankSummaryRowsOf, bankCatRowsOf]

/-- The credit builder succeeds on every well-typed analysis and renders
the mirror workbook. -/
theorem createCredit_ok (a : JsVal) (ha : wfAnalysis a = true) :
    createCreditCardExcel a = .ok (creditWorkbookOf a) := by
  have hparts := ha
  simp only [wfAnalysis, Bool.and_eq_true] at hparts
  obtain ⟨⟨hnn, _⟩, _⟩ := hparts
  simp [createCreditCardExcel, jsGet_ok a hnn, ok_bind, except_pure,
        creditSummaryBlock_ok, creditWorkbookOf, creditTransListOf,
        creditSubsListOf, creditSummaryRowsOf]


/-- C7: on every analysis object with arbitrarily missing optional fields
(well-typed where present), neither renderer fails: the bank workbook has
exactly the sheets All Transactions and Summary, the credit workbook has
exactly Transactions, Subscriptions and Summary with one subscription row
per entry of the subscriptions array, and each field read from the
analysis is defaulted to zero or the empty string when absent. -/
theorem render_defaults (a : JsVal) (ha : wfAnalysis a = true) :
    createBankStatementExcel a = .ok (bankWorkbookOf a) ∧
    (bankWorkbookOf a).sheets.map Worksheet.name = ["All Transactions", "Summary"] ∧
    createCreditCardExcel a = .ok (creditWorkbookOf a) ∧
    (creditWorkbookOf a).sheets.map Worksheet.name =
      ["Transactions", "Subscriptions", "Summary"] ∧
    (creditWorkbookOf a).sheets.map Worksheet.rows =
      [creditTransListOf a, creditSubsListOf a, creditSummaryRowsOf a] ∧
    (bankWorkbookOf a).sheets.map Worksheet.rows =
      [(bankTransListOf a).map bankRowPure,
       bankSummaryRowsOf a ++ [kvRow "" (.str ""), kvRow "Category Breakdown" (.str "")] ++
         bankCatRowsOf a] ∧
    (∀ t : JsVal, jsField t "debit" = .undefined →
      objLookup (bankRowPure t) "debit" = some (.num 0)) ∧
    (∀ t : JsVal, jsField t "date" = .undefined →
      objLookup (bankRowPure t) "date" = some (.str "")) ∧
    (∀ s : JsVal, jsTruthy s = true → jsField s "totalSpent" = .undefined →
      (creditSummaryRowsOfVal s).head? = some (kvRow "Total Spent" (.num 0))) := by
  refine ⟨createBank_ok a ha, rfl, createCredit_ok a ha, rfl, rfl, rfl, ?_, ?_, ?_⟩
  · intro t h
    simp only [bankRowPure, h]
    rfl
  · intro t h
    simp only [bankRowPure, h]
    rfl
  · intro s hs h
    simp only [creditSummaryRowsOfVal, hs, h]
    rfl

/-- Witness for C7 at an analysis object holding only a subscriptions
array of two entries. -/
theorem render_defaults_witness :
    wfAnalysis demoAnalysis = true ∧
    createCreditCardExcel demoAnalysis = .ok (creditWorkbookOf demoAnalysis) ∧
    (creditWorkbookOf demoAnalysis).sheets.map Worksheet.rows =
      [creditTransListOf demoAnalysis, creditSubsListOf demoAnalysis,
       creditSummaryRowsOf demoAnalysis] ∧
    createBankStatementExcel demoAnalysis = .ok (bankWorkbookOf demoAnalysis) ∧
    objLookup (bankRowPure (JsVal.obj [])) "debit" = some (.num 0) := by
  have H := render_defaults demoAnalysis rfl
  exact ⟨rfl, H.2.2.1, H.2.2.2.2.1, H.1, H.2.2.2.2.2.2.1 (JsVal.obj []) rfl⟩

end SoloPay
